import Mathlib

/-!
Verification development for the registration/authentication backend
(`backend/app/schemas.py`, `backend/app/routes/auth.py`).

The Python code is shallowly embedded: pydantic validators become functions
returning `Except String _`, route handlers become functions over an explicit
store (`List User`), and the SQLAlchemy store becomes list operations with a
unique-email constraint.  The modules `app/auth.py` and `app/models.py` are not
present in the source tree; the credential hasher, the token service and the
`updated_at` column behaviour are modelled from the specification and the
repository's own tests, as noted on each definition.
-/

namespace RegForm

/-! ## Password policy validator (`schemas.py`, `UserCreate.validate_password`) -/

/-- The character class of the symbol regex in `validate_password`:
`[!@#$%^&*()_+\-=\[\]{};\':"\\|,.<>\/?]`.  The braces, apostrophe and quote
are written via `Char.ofNat` (codes 123, 125, 39, 34). -/
def symbolChars : List Char :=
  ['!', '@', '#', '$', '%', '^', '&', '*', '(', ')', '_', '+', '-', '=',
   '[', ']', Char.ofNat 123, Char.ofNat 125, ';', Char.ofNat 39, ':',
   Char.ofNat 34, '\\', '|', ',', '.', '<', '>', '/', '?']

/-- `for i in range(len(v)-2): if v[i] == v[i+1] == v[i+2]` — scan for a
triple of identical consecutive characters. -/
def hasTripleRun : List Char → Bool
  | a :: b :: c :: rest => (a == b && b == c) || hasTripleRun (b :: c :: rest)
  | _ => false

/-- `UserCreate.validate_password` (schemas.py lines 22–43): fail-fast checks of
length, `[A-Z]`, `[a-z]`, `[0-9]`, the symbol class, and the repeated-character
scan, each raising `ValueError` with the message below. -/
def validate_password (v : String) : Except String Unit :=
  if v.length < 12 then
    .error "Password must be at least 12 characters long"
  else if !(v.data.any Char.isUpper) then
    .error "Password must contain at least one uppercase letter"
  else if !(v.data.any Char.isLower) then
    .error "Password must contain at least one lowercase letter"
  else if !(v.data.any Char.isDigit) then
    .error "Password must contain at least one number"
  else if !(v.data.any (fun c => symbolChars.contains c)) then
    .error "Password must contain at least one symbol"
  else if hasTripleRun v.data then
    .error "Password cannot contain 3 or more consecutive repeated characters"
  else
    .ok ()

/-- `UserCreate.validate_email_domain` (schemas.py lines 15–19):
`if not v.endswith('@getcovered.io')`.  `endswith` is embedded as a suffix
test on the character list. -/
def validate_email_domain (v : String) : Except String Unit :=
  if !(List.isSuffixOf "@getcovered.io".data v.data) then
    .error "Email must be from @getcovered.io domain"
  else
    .ok ()

/-- `UserCreate.passwords_match` (schemas.py lines 45–48). -/
def passwords_match (password confirm : String) : Except String Unit :=
  if confirm != password then .error "Passwords do not match" else .ok ()

/-! ## Password/email difference (`UserCreate.validate_password_email_difference`) -/

/-- `self.email.split('@')[0]`: the part of the email before the first `@`
(the whole string when there is no `@`), as a character list. -/
def emailLocalPart (email : String) : List Char :=
  email.data.takeWhile (fun c => c != '@')

/-- The difference count computed by `validate_password_email_difference`
(schemas.py lines 52–60): `sum(1 for a, b in zip(local.lower(), pw.lower())
if a != b) + abs(len(local) - len(pw))`. -/
def diffUnits (email password : String) : Nat :=
  let l := (emailLocalPart email).map Char.toLower
  let p := password.data.map Char.toLower
  (List.zip l p).countP (fun ab => ab.1 != ab.2)
    + (((emailLocalPart email).length : Int) - (password.length : Int)).natAbs

/-- `validate_password_email_difference`: raises iff `diffUnits < 5`. -/
def validate_password_email_difference (email password : String) :
    Except String Unit :=
  if diffUnits email password < 5 then
    .error "Password must differ from email local part by at least 5 characters"
  else
    .ok ()

/-! ## Credential hasher

Modelled from the spec: `app/auth.py` is absent from the source tree (only its
importers and tests are present).  Per spec §4.2 the hasher is a salted one-way
digest: fresh salt on each call yields different digests, and `verify` accepts
exactly the original password against a digest.  The nondeterministic salt is
made an explicit argument; one-wayness itself is not modelled. -/

/-- An opaque salted digest: the stored salt plus the salted image of the
password.  Modelled from the spec (see section comment above). -/
structure Digest where
  salt : Nat
  body : List Char
deriving DecidableEq, Repr

/-- Modelled from the spec: `get_password_hash(password)` with the fresh salt
made explicit.  Two calls with distinct salts give distinct digests. -/
def get_password_hash (password : String) (salt : Nat) : Digest :=
  ⟨salt, (Nat.toDigits 10 salt) ++ ':' :: password.data⟩

/-- Modelled from the spec: `verify_password(plain, digest)` recomputes the
salted image under the digest's stored salt and compares. -/
def verify_password (password : String) (d : Digest) : Bool :=
  (Nat.toDigits 10 d.salt) ++ ':' :: password.data == d.body

/-! ## Token service

Modelled from the spec: `app/auth.py` is absent from the source tree.  Per
spec §4.3, `create_access_token` embeds subject and absolute expiry
(`now + lifetime`) signed under a symmetric secret, and verification fails
uniformly with an unauthenticated outcome when the signature is invalid, the
subject claim is absent, or the expiry is not in the future (spec §4.3 edge
case: a non-positive lifetime must fail immediately, so an expiry equal to the
current instant counts as expired).  Times are integer timestamps. -/

/-- The claim set of a token: optional subject and absolute expiry. -/
structure TokenClaims where
  sub : Option String
  exp : Int
deriving DecidableEq, Repr

/-- A signed token: claims plus the secret it was signed under (standing for
the signature). -/
structure SignedToken where
  claims : TokenClaims
  signedWith : String
deriving DecidableEq, Repr

/-- An HTTP-level error outcome: status code and detail message. -/
structure HttpError where
  status : Nat
  detail : String
deriving DecidableEq, Repr

/-- The unified unauthenticated outcome (tests/test_auth.py: status 401,
detail "Could not validate credentials"). -/
def unauthenticatedError : HttpError :=
  ⟨401, "Could not validate credentials"⟩

/-- Modelled from the spec: `create_access_token(data={"sub": sub},
expires_delta)` at current instant `now`. -/
def create_access_token (secret : String) (sub : String) (now lifetime : Int) :
    SignedToken :=
  ⟨⟨some sub, now + lifetime⟩, secret⟩

/-- Modelled from the spec: `verify_token` at instant `now` under `secret`:
fails with the unified unauthenticated outcome on bad signature, expired
token, or missing subject; otherwise returns the subject. -/
def verify_token (secret : String) (t : SignedToken) (now : Int) :
    Except HttpError String :=
  if t.signedWith != secret then .error unauthenticatedError
  else if t.claims.exp ≤ now then .error unauthenticatedError
  else
    match t.claims.sub with
    | none => .error unauthenticatedError
    | some s => .ok s

/-! ## Data model (`app/models.py` is absent; fields from its importers and
tests/test_models.py: id, first_name, last_name, email, hashed_password,
created_at, updated_at with `updated_at` null until the first update). -/

/-- A stored identity row. -/
structure User where
  id : Nat
  first_name : String
  last_name : String
  email : String
  hashed_password : Digest
  created_at : Nat
  updated_at : Option Nat
deriving DecidableEq, Repr

/-- The public view returned by routes with `response_model=UserResponse`
(schemas.py): id, names, email, created_at — no password or digest field. -/
structure UserResponse where
  id : Nat
  first_name : String
  last_name : String
  email : String
  created_at : Nat
deriving DecidableEq, Repr

/-- FastAPI's `response_model=UserResponse` projection of a stored row. -/
def UserResponse.ofUser (u : User) : UserResponse :=
  ⟨u.id, u.first_name, u.last_name, u.email, u.created_at⟩

/-- A validated `UserCreate` payload. -/
structure UserCreate where
  first_name : String
  last_name : String
  email : String
  password : String
  confirm_password : String
deriving DecidableEq, Repr

/-- Pydantic construction of `UserCreate`: run the field validators
(`validate_email_domain`, `validate_password`, `passwords_match`) in
declaration order; the payload exists only if all pass. -/
def UserCreate.validate (first_name last_name email password confirm : String) :
    Except String UserCreate := do
  validate_email_domain email
  validate_password password
  passwords_match password confirm
  pure ⟨first_name, last_name, email, password, confirm⟩

/-- `db.query(User).filter(User.email == email).first()`. -/
def findByEmail (db : List User) (email : String) : Option User :=
  db.find? (fun u => u.email == email)

/-! ## Route handlers (`app/routes/auth.py`) -/

/-- Outcome of the register handler: a 201 response with the
`UserResponse` projection, a raised `HTTPException`, or an exception escaping
the handler uncaught (a raw storage fault). -/
inductive RegisterOutcome where
  | created (resp : UserResponse)
  | httpError (e : HttpError)
  | storageFault (msg : String)
deriving DecidableEq, Repr

/-- The store's insert with the unique-email constraint (tests/test_models.py
`test_email_uniqueness_constraint`): committing a row whose email is already
present raises an `IntegrityError`; otherwise the store assigns the next id
and the creation timestamp. -/
def insertUser (db : List User) (first_name last_name email : String)
    (digest : Digest) (now : Nat) : Except String (List User × User) :=
  if db.any (fun u => u.email == email) then
    .error "UNIQUE constraint failed: users.email"
  else
    let u : User := ⟨db.length + 1, first_name, last_name, email, digest, now, none⟩
    .ok (db ++ [u], u)

/-- `register_user` (routes/auth.py lines 96–122): the password/email
difference check, then the duplicate pre-check, then hash and insert.
`dbAtCheck` is the store state observed by the pre-check and `dbAtInsert` the
state at commit time; sequential execution is `dbAtCheck = dbAtInsert`, and
differing states model a concurrent registration landing between the two.
The handler wraps no try/except around the insert, so an `IntegrityError`
raised at commit escapes as a raw storage fault. -/
def register_user (user : UserCreate) (dbAtCheck dbAtInsert : List User)
    (salt now : Nat) : RegisterOutcome :=
  match validate_password_email_difference user.email user.password with
  | .error m => .httpError ⟨400, m⟩
  | .ok _ =>
    match findByEmail dbAtCheck user.email with
    | some _ => .httpError ⟨400, "Email already registered"⟩
    | none =>
      let hashed := get_password_hash user.password salt
      match insertUser dbAtInsert user.first_name user.last_name user.email hashed now with
      | .error m => .storageFault m
      | .ok (_, u) => .created (UserResponse.ofUser u)

/-- The full registration flow: pydantic validation of the payload
(a validation failure is a 422 response), then the handler on a single
(sequential) store state. -/
def registerFlow (first_name last_name email password confirm : String)
    (db : List User) (salt now : Nat) : RegisterOutcome :=
  match UserCreate.validate first_name last_name email password confirm with
  | .error m => .httpError ⟨422, m⟩
  | .ok u => register_user u db db salt now

/-- The single failure value of the login handler (routes/auth.py
lines 129–134): status 401, detail "Incorrect email or password". -/
def invalidCredentialsError : HttpError :=
  ⟨401, "Incorrect email or password"⟩

/-- `login_user` (routes/auth.py lines 125–141): look up by email; the `if
not user or not verify_password(...)` guard raises the one 401 error both
when the lookup is empty and when verification fails; on success a token is
issued for the user's email with the configured lifetime in minutes.
`verify` abstracts `verify_password` from the absent `app/auth.py`. -/
def login_user (verify : String → Digest → Bool) (db : List User)
    (email password : String) (secret : String) (now expireMinutes : Int) :
    Except HttpError SignedToken :=
  match findByEmail db email with
  | none => .error invalidCredentialsError
  | some u =>
    if verify password u.hashed_password then
      .ok (create_access_token secret u.email now (expireMinutes * 60))
    else .error invalidCredentialsError

/-- `update_profile` (routes/auth.py lines 149–161): overwrite the two name
fields of the resolved identity and commit.  The commit stamps `updated_at`
(modelled from tests/test_models.py, `app/models.py` being absent from the
source tree: `updated_at` is set on update, all other columns untouched). -/
def update_profile (current_user : User) (upd_first upd_last : String)
    (now : Nat) : User :=
  { current_user with
      first_name := upd_first, last_name := upd_last, updated_at := some now }

/-- The five predetermined rows of `initialize_database_with_test_data`
(routes/auth.py lines 30–61): first name, last name, email, password. -/
def initSeedData : List (String × String × String × String) :=
  [("John", "Smith", "john.smith@getcovered.io", "SecurePass123!@#"),
   ("Sarah", "Johnson", "sarah.johnson@getcovered.io", "StrongPwd456$%^"),
   ("Michael", "Brown", "michael.brown@getcovered.io", "ComplexKey789&*()"),
   ("Emily", "Davis", "emily.davis@getcovered.io", "PowerfulAuth012!@"),
   ("David", "Wilson", "david.wilson@getcovered.io", "RobustLogin345#$%")]

/-- `initialize_database_with_test_data` (routes/auth.py lines 18–93): if the
store holds any user, raise a 400 and touch nothing; otherwise hash each
predetermined password (the fresh salts written out as the row index) and
insert the five rows — no payload validator or difference check runs.
Returns the resulting store together with the handler outcome. -/
def initialize_database_with_test_data (db : List User) (now : Nat) :
    List User × Except HttpError String :=
  let existing_users := db.length
  if existing_users > 0 then
    (db, .error ⟨400, "Database already initialized with " ++ toString existing_users
                        ++ " users. Operation not allowed."⟩)
  else
    let inserted := initSeedData.enum.map fun p =>
      User.mk (p.1 + 1) p.2.1 p.2.2.1 p.2.2.2.1
        (get_password_hash p.2.2.2.2 p.1) now none
    (db ++ inserted,
     .ok ("Database initialized with " ++ toString initSeedData.length ++ " test users"))

/-! ## Spec-side definitions (worded from the specification, for comparison
with the embedded code) -/

/-- Spec-side difference metric, first summand: over the index positions both
strings share, the number of positions where the case-insensitively compared
characters differ. -/
def specMismatchCount : List Char → List Char → Nat
  | a :: as, b :: bs =>
      (if a.toLower = b.toLower then 0 else 1) + specMismatchCount as bs
  | _, _ => 0

/-- Spec-side difference metric: positionwise case-insensitive mismatch count
plus the absolute difference between the lengths of the email local-part and
the password. -/
def specDiffUnits (email password : String) : Nat :=
  specMismatchCount (emailLocalPart email) password.data
    + Nat.dist (emailLocalPart email).length password.length

/-- Spec-side: the character is ASCII punctuation — printable non-space ASCII
that is not alphanumeric. -/
def isAsciiPunct (c : Char) : Bool :=
  33 ≤ c.toNat && c.toNat ≤ 126 && !(c.isAlphanum)

/-- Spec-side: the list contains a run of three identical consecutive
characters (any run of length ≥ 3 contains such a triple). -/
def HasTripleRunSpec (l : List Char) : Prop :=
  ∃ l1 c l2, l = l1 ++ c :: c :: c :: l2

/-! ## Helper lemmas -/

/-- Zipping the lowercased strings and counting `!=` positions is the
spec-side positionwise mismatch count. -/
theorem zip_countP_eq_specMismatchCount (as bs : List Char) :
    (List.zip (as.map Char.toLower) (bs.map Char.toLower)).countP
      (fun ab => ab.1 != ab.2) = specMismatchCount as bs := by
  induction as generalizing bs with
  | nil => cases bs <;> simp [specMismatchCount]
  | cons a as ih =>
    cases bs with
    | nil => simp [specMismatchCount]
    | cons b bs =>
      simp only [List.map_cons, List.zip_cons_cons, List.countP_cons, ih,
        specMismatchCount]
      by_cases h : a.toLower = b.toLower <;> (simp [h]; try omega)

/-- The code's `diffUnits` equals the spec-side metric. -/
theorem diffUnits_eq_specDiffUnits (email password : String) :
    diffUnits email password = specDiffUnits email password := by
  unfold diffUnits specDiffUnits
  dsimp only
  rw [zip_countP_eq_specMismatchCount]
  congr 1
  simp [Nat.dist]
  omega

/-- Claim C1: the password/email-difference validation computes exactly the
spec's metric — the count of shared index positions where the
case-insensitively compared characters of the local-part and the password
differ, plus the absolute length difference — and rejects with the similarity
rule iff this sum is below 5, accepting otherwise. -/
theorem password_email_difference_exact (email password : String) :
    (validate_password_email_difference email password
        = .error "Password must differ from email local part by at least 5 characters"
      ↔ specDiffUnits email password < 5)
    ∧ (validate_password_email_difference email password = .ok ()
      ↔ 5 ≤ specDiffUnits email password) := by
  unfold validate_password_email_difference
  rw [diffUnits_eq_specDiffUnits]
  by_cases h : specDiffUnits email password < 5 <;> (simp [h]; try omega)

/-- Claim C2: login fails with the single unified invalid-credentials outcome
(status 401, detail "Incorrect email or password") both when no stored
identity has the given email and when one exists but digest verification of
the supplied password fails — the two failures are the same value, so the
caller cannot tell an unknown email from a wrong password. -/
theorem login_uniform_invalid_credentials
    (verify : String → Digest → Bool) (db : List User)
    (email password secret : String) (now expireMinutes : Int)
    (h : findByEmail db email = none
         ∨ ∃ u, findByEmail db email = some u
               ∧ verify password u.hashed_password = false) :
    login_user verify db email password secret now expireMinutes
      = .error invalidCredentialsError := by
  unfold login_user
  rcases h with h | ⟨u, hu, hv⟩
  · rw [h]
  · rw [hu]
    simp [hv]

/-- Witness for claim C2: a concrete login against the empty store fails with
the unified invalid-credentials outcome. -/
theorem login_uniform_invalid_credentials_witness :
    login_user (fun _ _ => false) [] "a.b@getcovered.io" "pw" "secret" 0 30
      = .error invalidCredentialsError :=
  login_uniform_invalid_credentials (fun _ _ => false) []
    "a.b@getcovered.io" "pw" "secret" 0 30 (Or.inl rfl)

/-- A concrete stored row, as seeded by the init handler's first entry. -/
def johnRow : User :=
  ⟨1, "John", "Smith", "john.smith@getcovered.io",
   get_password_hash "SecurePass123!@#" 0, 0, none⟩

/-- Counterexample to claim C3: when the duplicate email is absent at the
pre-check but present at insert time (a race on the unique email), the
handler's outcome is the raw storage fault — the integrity violation is not
caught and translated into the duplicate-identity error, because
`register_user` wraps no try/except around the insert. -/
theorem register_race_integrity_uncaught :
    register_user
        ⟨"Jane", "Doe", "john.smith@getcovered.io", "Str0ng!Passw0rd", "Str0ng!Passw0rd"⟩
        [] [johnRow] 0 0
      = .storageFault "UNIQUE constraint failed: users.email"
    ∧ register_user
        ⟨"Jane", "Doe", "john.smith@getcovered.io", "Str0ng!Passw0rd", "Str0ng!Passw0rd"⟩
        [] [johnRow] 0 0
      ≠ .httpError ⟨400, "Email already registered"⟩ :=
  ⟨rfl, by decide⟩

/-- Claim C3 (amended): for a candidate passing the password/email-difference
check, registration fails with the duplicate-identity error (400, "Email
already registered") whenever the pre-insert lookup finds the email; but a
store-level integrity violation raised at insert time (race on the unique
email) is not caught — it surfaces as the raw storage fault. -/
theorem register_duplicate_behaviour
    (user : UserCreate) (dbAtCheck dbAtInsert : List User) (salt now : Nat)
    (hval : validate_password_email_difference user.email user.password = .ok ()) :
    (∀ u, findByEmail dbAtCheck user.email = some u →
        register_user user dbAtCheck dbAtInsert salt now
          = .httpError ⟨400, "Email already registered"⟩)
    ∧ (findByEmail dbAtCheck user.email = none →
       dbAtInsert.any (fun u => u.email == user.email) = true →
       register_user user dbAtCheck dbAtInsert salt now
         = .storageFault "UNIQUE constraint failed: users.email") := by
  unfold register_user
  rw [hval]
  constructor
  · intro u hu
    rw [hu]
  · intro hnone hany
    rw [hnone]
    simp [insertUser, hany]

/-- Witness for claim C3 (amended): registering John's email while his row is
already in the store fails with the duplicate-identity error. -/
theorem register_duplicate_behaviour_witness :
    register_user
        ⟨"Jane", "Doe", "john.smith@getcovered.io", "Str0ng!Passw0rd", "Str0ng!Passw0rd"⟩
        [johnRow] [johnRow] 0 0
      = .httpError ⟨400, "Email already registered"⟩ :=
  (register_duplicate_behaviour
      ⟨"Jane", "Doe", "john.smith@getcovered.io", "Str0ng!Passw0rd", "Str0ng!Passw0rd"⟩
      [johnRow] [johnRow] 0 0 (by rfl)).1 johnRow rfl

/-- Claim C4: a token issued with a zero or negative lifetime fails
verification with the unauthenticated outcome at any instant from issuance
on, including immediately at the instant of issuance. -/
theorem nonpositive_lifetime_token_fails
    (secret sub : String) (now lifetime t : Int)
    (hL : lifetime ≤ 0) (ht : now ≤ t) :
    verify_token secret (create_access_token secret sub now lifetime) t
      = .error unauthenticatedError := by
  have hexp : now + lifetime ≤ t := by omega
  simp [verify_token, create_access_token, hexp]

/-- Witness for claim C4: a token with zero lifetime, verified at the very
instant of issuance, is rejected. -/
theorem nonpositive_lifetime_token_fails_witness :
    verify_token "secret" (create_access_token "secret" "a.b@getcovered.io" 100 0) 100
      = .error unauthenticatedError :=
  nonpositive_lifetime_token_fails "secret" "a.b@getcovered.io" 100 0 100
    (by decide) (by decide)

/-- Claim C5: hashing the same password under two distinct fresh salts yields
distinct digests, and the password verifies against both. -/
theorem hash_fresh_salt_distinct_and_verifies
    (p : String) (s1 s2 : Nat) (h : s1 ≠ s2) :
    get_password_hash p s1 ≠ get_password_hash p s2
    ∧ verify_password p (get_password_hash p s1) = true
    ∧ verify_password p (get_password_hash p s2) = true := by
  refine ⟨fun he => h (congrArg Digest.salt he), ?_, ?_⟩
  · simp [verify_password, get_password_hash]
  · simp [verify_password, get_password_hash]

/-- Witness for claim C5: concrete salts 0 and 1 on a concrete password. -/
theorem hash_fresh_salt_distinct_and_verifies_witness :
    get_password_hash "SecurePassword123!" 0 ≠ get_password_hash "SecurePassword123!" 1
    ∧ verify_password "SecurePassword123!" (get_password_hash "SecurePassword123!" 0) = true
    ∧ verify_password "SecurePassword123!" (get_password_hash "SecurePassword123!" 1) = true :=
  hash_fresh_salt_distinct_and_verifies "SecurePassword123!" 0 1 (by decide)

/-- Counterexample to claim C6: `"Abcd1234efg~"` contains the ASCII
punctuation character `~` (so under the claim the symbol requirement would be
satisfied), yet the validator rejects it with the symbol rule: the regex
character class omits the tilde (and the backquote). -/
theorem symbol_rule_misses_ascii_punct :
    "Abcd1234efg~".data.any isAsciiPunct = true
    ∧ validate_password "Abcd1234efg~"
        = .error "Password must contain at least one symbol" :=
  ⟨by decide, rfl⟩

/-- Claim C6 (amended): for a password passing the length, uppercase,
lowercase and digit checks, the validator rejects with the symbol rule iff the
password contains no character of the fixed 30-character class of the symbol
regex (ASCII punctuation minus backquote and tilde); equivalently, the symbol
requirement is satisfied exactly by that class. -/
theorem symbol_rule_exact_class (pw : String)
    (hlen : ¬ pw.length < 12)
    (hu : pw.data.any Char.isUpper = true)
    (hl : pw.data.any Char.isLower = true)
    (hd : pw.data.any Char.isDigit = true) :
    validate_password pw = .error "Password must contain at least one symbol"
      ↔ pw.data.any (fun c => symbolChars.contains c) = false := by
  unfold validate_password
  rw [if_neg hlen]
  simp only [hu, hl, hd, Bool.not_true, Bool.false_eq_true, if_false]
  cases hs : pw.data.any (fun c => symbolChars.contains c) with
  | false => simp
  | true =>
    simp only [Bool.not_true, Bool.false_eq_true, if_false]
    cases hr : hasTripleRun pw.data <;> simp

/-- Witness for claim C6 (amended): the tilde-only password is rejected with
the symbol rule since it has no character of the regex's class. -/
theorem symbol_rule_exact_class_witness :
    validate_password "Abcd1234efg~"
      = .error "Password must contain at least one symbol" :=
  (symbol_rule_exact_class "Abcd1234efg~" (by decide) (by decide) (by decide)
    (by decide)).mpr (by decide)

/-- A triple run in the tail gives one in the extended list. -/
theorem hasTripleRun_cons (x : Char) (l : List Char)
    (h : hasTripleRun l = true) : hasTripleRun (x :: l) = true := by
  match l with
  | [] => simp [hasTripleRun] at h
  | [a] => simp [hasTripleRun] at h
  | a :: b :: t => simp [hasTripleRun, h]

/-- The code's consecutive-triple scan agrees with the spec-side run
predicate. -/
theorem hasTripleRun_iff (l : List Char) :
    hasTripleRun l = true ↔ HasTripleRunSpec l := by
  constructor
  · intro h
    induction l with
    | nil => simp [hasTripleRun] at h
    | cons a t ih =>
      cases t with
      | nil => simp [hasTripleRun] at h
      | cons b t2 =>
        cases t2 with
        | nil => simp [hasTripleRun] at h
        | cons c r =>
          simp only [hasTripleRun, Bool.or_eq_true, Bool.and_eq_true,
            beq_iff_eq] at h
          rcases h with ⟨hab, hbc⟩ | htail
          · subst hab; subst hbc
            exact ⟨[], a, r, rfl⟩
          · rcases ih htail with ⟨l1, c0, l2, he⟩
            exact ⟨a :: l1, c0, l2, by rw [List.cons_append, ← he]⟩
  · rintro ⟨l1, c, l2, rfl⟩
    induction l1 with
    | nil => simp [hasTripleRun]
    | cons x l1 ih =>
      rw [List.cons_append]
      exact hasTripleRun_cons x _ ih

/-- Claim C7: a password satisfying the length, uppercase, lowercase, digit
and symbol checks that contains a run of three or more identical consecutive
characters is rejected with the repeated-character rule. -/
theorem triple_run_rejected (pw : String)
    (hlen : ¬ pw.length < 12)
    (hu : pw.data.any Char.isUpper = true)
    (hl : pw.data.any Char.isLower = true)
    (hd : pw.data.any Char.isDigit = true)
    (hs : pw.data.any (fun c => symbolChars.contains c) = true)
    (hrun : HasTripleRunSpec pw.data) :
    validate_password pw
      = .error "Password cannot contain 3 or more consecutive repeated characters" := by
  have hr : hasTripleRun pw.data = true := (hasTripleRun_iff pw.data).mpr hrun
  unfold validate_password
  rw [if_neg hlen]
  simp only [hu, hl, hd, hs, hr, Bool.not_true, Bool.false_eq_true, if_false,
    if_true]

/-- Witness for claim C7: `"aaaBBB111!!!"` (triple a, B, 1 and !) is rejected
with the repeated-character rule. -/
theorem triple_run_rejected_witness :
    validate_password "aaaBBB111!!!"
      = .error "Password cannot contain 3 or more consecutive repeated characters" :=
  triple_run_rejected "aaaBBB111!!!" (by decide) (by decide) (by decide)
    (by decide) (by decide) ⟨[], 'a', "BBB111!!!".data, by decide⟩

/-- Counterexample to claim C8: there is no configurable required domain —
the domain check is the literal suffix `@getcovered.io` — so the claimed
candidate `a.b@org.example` is rejected by the email-domain validator and the
registration flow fails, instead of succeeding. -/
theorem org_example_domain_rejected :
    UserCreate.validate "Alice" "B" "a.b@org.example" "Str0ng!Passw0rd" "Str0ng!Passw0rd"
      = .error "Email must be from @getcovered.io domain"
    ∧ registerFlow "Alice" "B" "a.b@org.example" "Str0ng!Passw0rd" "Str0ng!Passw0rd" [] 0 0
      = .httpError ⟨422, "Email must be from @getcovered.io domain"⟩ :=
  ⟨rfl, rfl⟩

/-- Claim C8 (amended): against the fixed required domain `getcovered.io`,
registering the candidate with email `a.b@getcovered.io`, password
`Str0ng!Passw0rd` and matching confirmation on the empty store succeeds and
returns the `UserResponse` view carrying the assigned id — a record type with
no digest and no password field. -/
theorem register_getcovered_scenario :
    registerFlow "Alice" "B" "a.b@getcovered.io" "Str0ng!Passw0rd" "Str0ng!Passw0rd" [] 0 7
      = .created ⟨1, "Alice", "B", "a.b@getcovered.io", 7⟩ :=
  rfl

/-- Claim C9: a profile update on a resolved identity changes only the two
name fields and the modification timestamp; id, email, credential digest and
creation timestamp are unchanged. -/
theorem update_profile_frame (u : User) (fn ln : String) (now : Nat) :
    (update_profile u fn ln now).first_name = fn
    ∧ (update_profile u fn ln now).last_name = ln
    ∧ (update_profile u fn ln now).updated_at = some now
    ∧ (update_profile u fn ln now).email = u.email
    ∧ (update_profile u fn ln now).hashed_password = u.hashed_password
    ∧ (update_profile u fn ln now).id = u.id
    ∧ (update_profile u fn ln now).created_at = u.created_at :=
  ⟨rfl, rfl, rfl, rfl, rfl, rfl, rfl⟩

/-- Claim C10: the hidden database-initialization operation succeeds exactly
on the empty store, inserting the five predetermined identities (ids 1–5,
the listed names and emails, salted digests of the listed passwords — no
payload validator or difference check runs on them); on any store already
holding an identity it fails with the 400 error and leaves the store
unchanged. -/
theorem init_db_empty_only :
    (∀ now, initialize_database_with_test_data [] now
       = ([⟨1, "John", "Smith", "john.smith@getcovered.io",
             get_password_hash "SecurePass123!@#" 0, now, none⟩,
           ⟨2, "Sarah", "Johnson", "sarah.johnson@getcovered.io",
             get_password_hash "StrongPwd456$%^" 1, now, none⟩,
           ⟨3, "Michael", "Brown", "michael.brown@getcovered.io",
             get_password_hash "ComplexKey789&*()" 2, now, none⟩,
           ⟨4, "Emily", "Davis", "emily.davis@getcovered.io",
             get_password_hash "PowerfulAuth012!@" 3, now, none⟩,
           ⟨5, "David", "Wilson", "david.wilson@getcovered.io",
             get_password_hash "RobustLogin345#$%" 4, now, none⟩],
          .ok "Database initialized with 5 test users"))
    ∧ (∀ db now, db ≠ [] →
        initialize_database_with_test_data db now
          = (db, .error ⟨400, "Database already initialized with "
                              ++ toString db.length
                              ++ " users. Operation not allowed."⟩)) := by
  constructor
  · intro now
    rfl
  · intro db now h
    match db with
    | [] => exact absurd rfl h
    | x :: xs =>
      have hpos : 0 < (x :: xs).length := Nat.succ_pos xs.length
      unfold initialize_database_with_test_data
      dsimp only
      rw [if_pos hpos]

/-- Witness for claim C10: on a store already holding one row, initialization
fails with the 400 error and returns the store untouched. -/
theorem init_db_empty_only_witness :
    initialize_database_with_test_data [johnRow] 3
      = ([johnRow],
         .error ⟨400, "Database already initialized with 1 users. Operation not allowed."⟩) :=
  init_db_empty_only.2 [johnRow] 3 (by decide)

end RegForm
